import Mathlib

/-!
Verification development for the otto container lifecycle tool.

The definitions below are a shallow embedding of `ottolib/commands.py` and
`ottolib/utils.py`.  Pure string manipulation is translated to functions on
`List Char`; calls into the operating system (shell commands, file reads,
the container runtime) are modelled by explicit inputs: every external query
the Python code makes is a field of an environment record, and every external
effect it performs is recorded in an event trace.  Exceptions are modelled
with `Except`.  Code of the repository that is not part of the two source
files (the `container` module and `utils.get_iso_and_squashfs`) is modelled
from the specification and marked as such in its doc comment.
-/

namespace Otto

/-- Python exceptions the embedded code can raise. -/
inductive PyExc where
  | fileNotFound
  | unboundLocal
  | attributeError
  | indexError
  deriving DecidableEq, Repr

deriving instance DecidableEq for Except

/-- Substring check on character lists: Python `needle in hay`. -/
def containsList : List Char → List Char → Bool
  | [], needle => needle.isEmpty
  | h :: t, needle => needle.isPrefixOf (h :: t) || containsList t needle

/-- Python `needle in hay` on strings. -/
def containsStr (hay needle : String) : Bool :=
  containsList hay.data needle.data

/-- Result of one `subprocess.getstatusoutput` invocation: exit status and
captured output.  Shell invocations are modelled as a function from the
invocation index and the command line to such a pair, so successive
invocations of the same command may answer differently. -/
abbrev Shell := Nat → String → Int × String

/-- Embedding of `utils.service_exists` (utils.py lines 92-109).  Runs
`status <service>` as the `n`-th shell invocation; returns the result code
of the Python function together with the next invocation index. -/
def service_exists (sh : Shell) (n : Nat) (service : String) : Int × Nat :=
  let rm := sh n ("status " ++ service)
  if rm.1 = 0 then (0, n + 1)
  else if rm.1 = 256 && containsStr rm.2 "status: Unknown job:" then (1, n + 1)
  else (-1, n + 1)

/-- The three values `utils.service_is_running` can produce: Python `True`,
`False` or `-1`. -/
inductive RunState where
  | runningS
  | stoppedS
  | errS
  deriving DecidableEq, Repr

/-- Embedding of `utils.service_is_running` (utils.py lines 65-89). -/
def service_is_running (sh : Shell) (n : Nat) (service : String) : RunState × Nat :=
  let en := service_exists sh n service
  if en.1 ≠ 0 then (.errS, en.2)
  else
    let rm := sh en.2 ("status " ++ service)
    if rm.1 ≠ 0 then (.errS, en.2 + 1)
    else if containsStr rm.2 "start/running" then (.runningS, en.2 + 1)
    else if containsStr rm.2 "stop/waiting" then (.stoppedS, en.2 + 1)
    else (.errS, en.2 + 1)

/-- Python `status == (start == "start")` where `status` is `True` or
`False`: the boolean comparison in utils.py line 139. -/
def runStateEq : RunState → Bool → Bool
  | .runningS, b => b
  | .stoppedS, b => !b
  | .errS, _ => false

/-- Lower-casing of a string, Python `str.lower` (ASCII). -/
def pyLower (s : String) : String :=
  String.mk (s.data.map Char.toLower)

/-- Embedding of `utils.service_start_stop` (utils.py lines 112-150).
`uid` is the result of `os.getuid()`; shell invocations start at index 0.
The function is total: like the Python code it never raises, every failure
is a result code. -/
def service_start_stop (sh : Shell) (uid : Int) (service start : String) : Int × Nat :=
  if uid ≠ 0 then (3, 0)
  else
    let en := service_exists sh 0 service
    if en.1 < 0 then (-1, en.2)
    else if en.1 = 1 then (2, en.2)
    else
      let sn := service_is_running sh en.2 service
      if sn.1 = .errS then (99, sn.2)
      else if runStateEq sn.1 (start = "start") then (0, sn.2)
      else
        let rm := sh sn.2 (pyLower start ++ " " ++ pyLower service)
        if rm.1 ≠ 0 then (1, sn.2 + 1) else (0, sn.2 + 1)

/-- Embedding of `utils.service_stop`. -/
def service_stop (sh : Shell) (uid : Int) (service : String) : Int × Nat :=
  service_start_stop sh uid service "stop"

/-- Embedding of `utils.service_start`. -/
def service_start (sh : Shell) (uid : Int) (service : String) : Int × Nat :=
  service_start_stop sh uid service "start"

/-- One Python `str.replace(p, r)` call with a single-character pattern
`p`: every occurrence of the character is replaced by `r`. -/
def pyReplaceChar (p : Char) (r : List Char) : List Char → List Char
  | [] => []
  | c :: rest => (if c == p then r else [c]) ++ pyReplaceChar p r rest

/-- The Python call `str.replace("___", "_")` of commands.py line 288: one
left-to-right pass in which each occurrence of three consecutive underscores
is replaced by a single underscore, scanning resuming after the replaced
occurrence. -/
def collapseTriple : List Char → List Char
  | '_' :: '_' :: '_' :: rest => '_' :: collapseTriple rest
  | c :: rest => c :: collapseTriple rest
  | [] => []

/-- The substitution claim C4 describes instead: every run of consecutive
underscores (of any length) becomes a single underscore. -/
def collapseRuns : List Char → List Char
  | [] => []
  | [c] => [c]
  | c :: d :: rest =>
    if c == '_' && d == '_' then collapseRuns (d :: rest)
    else c :: collapseRuns (d :: rest)

/-- Embedding of the isoid computation in `Commands._extract_cd_info`
(commands.py lines 285-288): the chained `str.replace` calls in source
order — drop double quotes, space to underscore, hyphen to underscore, drop
parentheses, one pass of triple-underscore collapsing — then `str.lower`. -/
def extract_isoid (s : String) : String :=
  pyLower (String.mk (collapseTriple
    (pyReplaceChar ')' []
      (pyReplaceChar '(' []
        (pyReplaceChar '-' ['_']
          (pyReplaceChar ' ' ['_']
            (pyReplaceChar '\"' [] s.data)))))))

/-- The isoid computation as claim C4 words it: double quotes and
parentheses removed, every space and every hyphen replaced by a single
underscore, every run of consecutive underscores replaced by a single
underscore, and the result lower-cased. -/
def isoid_claimed (s : String) : String :=
  String.mk ((collapseRuns
    ((s.data.filter (fun c => !(c == '\"' || c == '(' || c == ')'))).map
      (fun c => if c == ' ' || c == '-' then '_' else c))).map Char.toLower)

/-- The isoid computation as amended: as `isoid_claimed`, except that only
occurrences of exactly three consecutive underscores are collapsed, in one
left-to-right pass. -/
def isoid_amended (s : String) : String :=
  String.mk ((collapseTriple
    ((s.data.filter (fun c => !(c == '\"' || c == '(' || c == ')'))).map
      (fun c => if c == ' ' || c == '-' then '_' else c))).map Char.toLower)

/-- Python `str.split()` with no argument: split on runs of whitespace,
dropping empty pieces.  `cur` is the (reversed) token being accumulated. -/
def splitWSAux : List Char → List Char → List (List Char)
  | [], cur => if cur.isEmpty then [] else [cur.reverse]
  | c :: rest, cur =>
    if c.isWhitespace then
      if cur.isEmpty then splitWSAux rest [] else cur.reverse :: splitWSAux rest []
    else splitWSAux rest (c :: cur)

/-- Python `line.split()` on a string. -/
def pySplitWS (s : String) : List (List Char) :=
  splitWSAux s.data []

/-- The test of commands.py line 290: the directory entry is neither
`stable` nor `unstable`. -/
def candB (e : String) : Bool :=
  !(e == "stable") && !(e == "unstable")

/-- The loop of commands.py lines 289-291: iterate over the `dists`
listing, binding `release` to each entry that is neither `stable` nor
`unstable`; the last such entry wins, `none` when the name was never
bound. -/
def pickRelease (dists : List String) : Option String :=
  dists.foldl (fun acc r => if candB r then some r else acc) none

/-- Python `line.split()[-1]`: the last whitespace-separated token of the
line, an `IndexError` when the line has no token. -/
def lastTokenE (line : String) : Except PyExc String :=
  match (pySplitWS line).getLast? with
  | some t => .ok (String.mk t)
  | none => .error .indexError

/-- The test of commands.py line 294: the line starts with the literal
`#define ARCH` followed by two spaces. -/
def archLineB (line : String) : Bool :=
  ("#define ARCH  ".data).isPrefixOf line.data

/-- The loop of commands.py lines 293-295: iterate over the lines of
`README.diskdefines`, binding `arch` to the last token of every line that
starts with `#define ARCH` and two spaces; the last binding wins, and an
`IndexError` inside the loop propagates. -/
def pickArchE : List String → Option String → Except PyExc (Option String)
  | [], acc => .ok acc
  | line :: rest, acc =>
    if archLineB line then
      match lastTokenE line with
      | .ok t => pickArchE rest (some t)
      | .error e => .error e
    else pickArchE rest acc

/-- The on-disk fixture `Commands._extract_cd_info` reads under a mount
point: the content of `.disk/info` (none when the file is missing), the
listing of `dists/`, and the lines of `README.diskdefines` (none when the
file is missing). -/
structure DiskDir where
  info : Option String
  dists : List String
  diskdefines : Option (List String)

/-- Embedding of `Commands._extract_cd_info` (commands.py lines 283-296).
Opening a missing file raises `FileNotFoundError`; reaching the final
`return` with `release` or `arch` never bound raises `UnboundLocalError`;
no failure is converted into a result code. -/
def extract_cd_info (d : DiskDir) : Except PyExc (String × String × String) :=
  match d.info with
  | none => .error .fileNotFound
  | some info =>
    let isoid := extract_isoid info
    let release? := pickRelease d.dists
    match d.diskdefines with
    | none => .error .fileNotFound
    | some lines =>
      match pickArchE lines none with
      | .error e => .error e
      | .ok arch? =>
        match release? with
        | none => .error .unboundLocal
        | some release =>
          match arch? with
          | none => .error .unboundLocal
          | some arch => .ok (isoid, release, arch)

/-- Python `os.path.dirname` for POSIX paths: everything up to the last
slash, trailing slashes stripped unless the head is all slashes. -/
def dirname (p : String) : String :=
  let cs := p.data
  let head := (cs.reverse.dropWhile (fun c => !(c == '/'))).reverse
  String.mk
    (if !head.isEmpty && head.any (fun c => !(c == '/')) then
      (head.reverse.dropWhile (fun c => c == '/')).reverse
    else head)

/-- Embedding of `utils.get_image_type` (utils.py lines 153-177), executed
under Python 3 (the repository uses `FileNotFoundError`,
`tempfile.TemporaryDirectory` and `str.split(maxsplit=1)`, all Python-3
only).  Inputs: whether `os.path.isfile(path)` holds and the
`(status, output)` of `file -b <path>`.  The two early branches return the
string `error`; the success branch then evaluates `imgtypes.iteritems()`,
an attribute a Python-3 `dict` does not have, so it raises `AttributeError`
before any signature is compared (and even with `items()` the comparison
`msg.lower.startswith(...)` would raise `AttributeError`, since `msg.lower`
is an unapplied method). -/
def get_image_type (isFile : Bool) (fileCmd : Int × String) : Except PyExc String :=
  if !isFile then .ok "error"
  else if fileCmd.1 ≠ 0 then .ok "error"
  else .error .attributeError

/-- The command-line arguments of `otto start` (commands.py lines 73-101),
after parsing: `none` stands for an option that was not supplied. -/
structure StartArgs where
  image : Option String
  custom_installation : Option String
  new : Bool
  keep_delta : Bool
  archive : Bool
  restore : Option String
  force_disconnect : Bool

/-- Modelled from the spec: the persisted per-container configuration
record (spec section 3 and section 4.4).  The `container` module holding the
`ContainerConfig` implementation is not under src/ — only its caller
`commands.py` is — so the record is taken from the attributes the spec and
the caller name: last-used image path, resolved iso and squashfs paths, the
disc identity triple, and the archive flag.  A `none` field is an attribute
never set; per spec section 4.4 reading it fails with an
attribute-not-set error. -/
structure Config where
  image : Option String
  isoid : Option String
  release : Option String
  arch : Option String
  iso : Option String
  squashfs : Option String
  archive : Option Bool

/-- Modelled from the spec: reading a `ContainerConfig` attribute that was
never set raises `AttributeError` (spec section 4.4, and the
`except AttributeError` handler in commands.py line 201). -/
def getattrE (a : Option String) : Except PyExc String :=
  match a with
  | some v => .ok v
  | none => .error .attributeError

/-- The external effects `cmd_start` performs, in chronological order. -/
inductive Event where
  | serviceStop
  | restoreAttempt
  | resolveImage
  | removeCustom
  | installCustom
  | extractInfo
  | removeDelta
  | runtimeStart
  | forcedStop
  deriving DecidableEq, Repr

/-- The environment of one `cmd_start` invocation: the answer every
external query would give.  Queries against the `container` module (runtime
state, restore, custom installation, the config records) and against
`utils.get_iso_and_squashfs` are modelled from the spec, since that code is
not under src/; the display-manager service control is the embedded
`service_stop` over `sh` and `uid`. -/
structure Env where
  /-- `self.container.running` at the pre-flight check. -/
  containerRunning : Bool
  /-- whether `pidof gnome-session` exits 0 (a session is running). -/
  gnomeSessionRunning : Bool
  /-- `os.getuid()`. -/
  uid : Int
  /-- shell invocation results for the service control calls. -/
  sh : Shell
  /-- the persisted config of the container (spec-modelled). -/
  config : Config
  /-- Modelled from the spec: the config after a successful
  `ArchiveStateStore.restore`, which populates the config from the
  archive's stored metadata (spec section 4.3). -/
  restoredConfig : Config
  /-- Modelled from the spec: whether the restore archive path exists;
  `restore` fails with a not-found error otherwise (spec section 4.3). -/
  archiveExists : String → Bool
  /-- `os.path.realpath`. -/
  realpath : String → String
  /-- `os.path.exists`. -/
  pathExists : String → Bool
  /-- Modelled from the spec: the `(iso, squashfs)` answer of
  `utils.get_iso_and_squashfs` on a path that names an existing file
  (spec section 4.2); `none` components fail the resolution. -/
  resolveExisting : String → Option String × Option String
  /-- Modelled from the spec: whether
  `container.install_custom_installation` succeeds. -/
  installOk : String → Bool
  /-- the disc fixture found under a mount point path. -/
  fixture : String → DiskDir
  /-- Modelled from the spec: whether the runtime start primitive
  `container.start()` succeeds. -/
  runtimeStartOk : Bool
  /-- `self.container.running` after the bounded wait
  `container.wait(STOPPED, TEST_TIMEOUT)` returned. -/
  runningAfterWait : Bool

/-- Lines 154-155 of commands.py: restoring forces `keep_delta` on; this is
the value of `self.args.keep_delta` at every later read. -/
def effKeepDelta (args : StartArgs) : Bool :=
  args.keep_delta || args.restore.isSome

/-- The config `cmd_start` works with after the restore step: the restored
one when a restore path was given (and the restore succeeded), the
persisted one otherwise. -/
def effConfig (args : StartArgs) (env : Env) : Config :=
  if args.restore.isSome then env.restoredConfig else env.config

/-- Image resolution, commands.py lines 196-210: a caller-supplied image is
passed through `os.path.realpath` with no existence check; otherwise the
config image is used, failing (`none`) when the attribute was never set or
the recorded path does not exist. -/
def resolvedImagePath (args : StartArgs) (env : Env) (cfg : Config) : Option String :=
  match args.image with
  | some p => some (env.realpath p)
  | none =>
    match cfg.image with
    | none => none
    | some p => if env.pathExists p then some p else none

/-- Modelled from the spec: `utils.get_iso_and_squashfs` is called by
commands.py line 213 but is not in the source tree.  Per spec section 4.2
the resolution classifies the file by content signature and an `error`
classification — in particular a path that does not name an existing file —
fails the whole resolution; the answer on an existing path is the
environment's `resolveExisting`. -/
def get_iso_and_squashfs (env : Env) (path : String) : Option String × Option String :=
  if env.pathExists path then env.resolveExisting path else (none, none)

/-- The short-circuiting comparison of commands.py lines 235-237:
`config.isoid == isoid and config.release == release and
config.arch == arch`, where reading an unset attribute raises. -/
def tripleMatches (cfg : Config) (isoid release arch : String) : Except PyExc Bool :=
  match getattrE cfg.isoid with
  | .error e => .error e
  | .ok ci =>
    if !(ci == isoid) then .ok false
    else
      match getattrE cfg.release with
      | .error e => .error e
      | .ok cr =>
        if !(cr == release) then .ok false
        else
          match getattrE cfg.arch with
          | .error e => .error e
          | .ok ca => .ok (ca == arch)

/-- Runtime start and bounded wait, commands.py lines 257-275: invoke the
runtime start primitive (failure aborts with 1), block on the wait, then —
if the container still reports running — force one stop and fail with 1,
else succeed with 0. -/
def cmd_start_run (env : Env) (tr : List Event) : Except PyExc Int × List Event :=
  let tr := tr ++ [Event.runtimeStart]
  if !env.runtimeStartOk then (.ok 1, tr)
  else if env.runningAfterWait then (.ok 1, tr ++ [Event.forcedStop])
  else (.ok 0, tr)

/-- Disc identity extraction and delta reconciliation, commands.py lines
230-255: extract the identity triple from the fixture two directory levels
above the squashfs (an exception propagates uncaught); with `keep_delta`
on, any mismatch against the stored triple returns 1, otherwise the delta
is removed unconditionally; then the config is updated and the run
continues. -/
def cmd_start_delta (args : StartArgs) (env : Env) (cfg : Config) (squashfs : String)
    (tr : List Event) : Except PyExc Int × List Event :=
  let tr := tr ++ [Event.extractInfo]
  match extract_cd_info (env.fixture (dirname (dirname squashfs))) with
  | .error e => (.error e, tr)
  | .ok (isoid, release, arch) =>
    if effKeepDelta args then
      match tripleMatches cfg isoid release arch with
      | .error e => (.error e, tr)
      | .ok false => (.ok 1, tr)
      | .ok true => cmd_start_run env tr
    else cmd_start_run env (tr ++ [Event.removeDelta])

/-- Custom-installation handling, commands.py lines 222-228: with `--new`
the previous custom installation is removed; a supplied custom-installation
directory is installed, failure aborting with 1. -/
def cmd_start_custom (args : StartArgs) (env : Env) (cfg : Config) (squashfs : String)
    (tr : List Event) : Except PyExc Int × List Event :=
  let tr := if args.new then tr ++ [Event.removeCustom] else tr
  match args.custom_installation with
  | some cdir =>
    let tr := tr ++ [Event.installCustom]
    if env.installOk cdir then cmd_start_delta args env cfg squashfs tr
    else (.ok 1, tr)
  | none => cmd_start_delta args env cfg squashfs tr

/-- Image resolution and mounting, commands.py lines 195-220: resolve the
image path (failure aborts with 1), resolve iso and squashfs paths (a
`none` component aborts with 1), record them in the config, and
continue. -/
def cmd_start_images (args : StartArgs) (env : Env) (cfg : Config)
    (tr : List Event) : Except PyExc Int × List Event :=
  match resolvedImagePath args env cfg with
  | none => (.ok 1, tr)
  | some imagepath =>
    let tr := tr ++ [Event.resolveImage]
    match get_iso_and_squashfs env imagepath with
    | (some iso, some squashfs) =>
      cmd_start_custom args env
        { cfg with iso := some iso, squashfs := some squashfs, image := some imagepath }
        squashfs tr
    | _ => (.ok 1, tr)

/-- Restore handling, commands.py lines 185-193: with a restore path, run
the restore — a missing archive raises a not-found error that is caught
and turned into return code 1 — then fetch the container config (the
restored one when a restore ran). -/
def cmd_start_restore (args : StartArgs) (env : Env)
    (tr : List Event) : Except PyExc Int × List Event :=
  match args.restore with
  | some rpath =>
    let tr := tr ++ [Event.restoreAttempt]
    if env.archiveExists rpath then cmd_start_images args env env.restoredConfig tr
    else (.ok 1, tr)
  | none => cmd_start_images args env env.config tr

/-- Embedding of `Commands.cmd_start` (commands.py lines 146-275).  In
source order: restore forces `keep_delta`; restore conflicts with a custom
installation or `--new` (return 1); an already-running container returns 1;
unless `-D` was given, a detected `gnome-session` returns 1; the
display-manager stop result aborts with that result when it exceeds 2; then
restore, image resolution, custom installation, identity extraction, delta
reconciliation, runtime start and the bounded wait follow. -/
def cmd_start (args : StartArgs) (env : Env) : Except PyExc Int × List Event :=
  if args.restore.isSome && (args.custom_installation.isSome || args.new) then (.ok 1, [])
  else if env.containerRunning then (.ok 1, [])
  else if !args.force_disconnect && env.gnomeSessionRunning then (.ok 1, [])
  else
    let ret := (service_stop env.sh env.uid "lightdm").1
    if ret > 2 then (.ok ret, [Event.serviceStop])
    else cmd_start_restore args env [Event.serviceStop]

/-- Claim-side predicate: the `dists/` listing has at least one entry other
than `stable` and `unstable`. -/
def hasCandidate (dists : List String) : Bool :=
  dists.any candB

/-- Claim-side predicate: some line of `README.diskdefines` starts with
`#define ARCH` followed by two spaces. -/
def hasArchLine (lines : List String) : Bool :=
  lines.any archLineB

/-- First-some choice on options, used to relate the release loop to the
claim-side last-match expression. -/
def optOr {α : Type} : Option α → Option α → Option α
  | some a, _ => some a
  | none, b => b

/-- A disc fixture with one release candidate and one arch line, used by
the concrete instantiations below. -/
def fixtureW : DiskDir :=
  ⟨some "X", ["jammy"], some ["#define ARCH  amd64"]⟩

/-- A plain `start <name> -i /image.iso` invocation. -/
def argsW : StartArgs :=
  { image := some "/image.iso", custom_installation := none, new := false,
    keep_delta := false, archive := false, restore := none, force_disconnect := false }

/-- The same invocation with `--keep-delta`. -/
def argsKeep : StartArgs :=
  { argsW with keep_delta := true }

/-- The same invocation with `-r a.tgz`. -/
def argsRestore : StartArgs :=
  { argsW with restore := some "a.tgz" }

/-- The same invocation with no image supplied. -/
def argsNoImage : StartArgs :=
  { argsW with image := none }

/-- Shell results for a host where every `status` query reports the service
stopped. -/
def shW : Shell := fun _ _ => (0, "stop/waiting")

/-- Shell results for a host where the `status` query fails with an
unrecognised exit status. -/
def shBad : Shell := fun _ _ => (127, "boom")

/-- A stored config from a previous run against another image. -/
def cfgW : Config :=
  { image := some "/old.iso", isoid := some "old", release := some "focal",
    arch := some "amd64", iso := none, squashfs := none, archive := none }

/-- An environment in which every step of the start sequence can succeed:
container stopped, no session, root, service already stopped, every path
present, resolution answering an iso and a squashfs, the fixture above
behind every mount point. -/
def envW : Env :=
  { containerRunning := false, gnomeSessionRunning := false, uid := 0, sh := shW,
    config := cfgW, restoredConfig := cfgW, archiveExists := fun _ => true,
    realpath := fun p => p, pathExists := fun _ => true,
    resolveExisting := fun _ => (some "/mnt.iso", some "/sq"),
    installOk := fun _ => true, fixture := fun _ => fixtureW,
    runtimeStartOk := true, runningAfterWait := true }

/-- As `envW` but the container reached the stopped state within the
bounded wait. -/
def envStopped : Env :=
  { envW with runningAfterWait := false }

/-- As `envW` but with no image recorded in the config. -/
def envNoImage : Env :=
  { envW with config := { cfgW with image := none } }

/-- As `envW` but the restore archive does not exist. -/
def envNoArchive : Env :=
  { envW with archiveExists := fun _ => false }

/-- As `envNoArchive` but run without root privilege, so the service stop
fails with result 3. -/
def envPriv : Env :=
  { envNoArchive with uid := 1 }

/-! ## Result-code completeness of the service wrappers -/

/-- Every branch of `service_start_stop` returns one of six codes. -/
theorem service_start_stop_mem (sh : Shell) (uid : Int) (service start : String) :
    (service_start_stop sh uid service start).1 ∈ ([-1, 0, 1, 2, 3, 99] : List Int) := by
  unfold service_start_stop
  simp only [ne_eq]
  repeat' split
  all_goals simp

/-- Claim C2, amended: `service_stop` and `service_start` never raise —
they are total functions into result codes — and every result lies in
the set with the additional code `-1`, returned when the existence query
itself fails unclassifiably. -/
theorem service_codes_complete (sh : Shell) (uid : Int) (service : String) :
    (service_stop sh uid service).1 ∈ ([-1, 0, 1, 2, 3, 99] : List Int) ∧
    (service_start sh uid service).1 ∈ ([-1, 0, 1, 2, 3, 99] : List Int) :=
  ⟨service_start_stop_mem sh uid service "stop",
   service_start_stop_mem sh uid service "start"⟩

/-- Claim C2, counterexample: with root privilege, a `status` query that
exits 127 makes `service_stop` return `-1`, a code outside the claimed
result set `{0, 1, 2, 3, 99}`. -/
theorem service_stop_outside_claimed_set :
    (service_stop shBad 0 "lightdm").1 = -1 ∧
    (service_stop shBad 0 "lightdm").1 ∉ ([0, 1, 2, 3, 99] : List Int) := by
  decide

/-! ## The broken success path of `get_image_type` -/

/-- Claim C3, code bug: on an existing file whose content-type query
succeeds — for either known signature — `get_image_type` raises
`AttributeError` instead of returning a classification, while the two
failure branches do return the string `error`. -/
theorem get_image_type_attribute_error :
    get_image_type true (0, "Squashfs filesystem - 4.0 (little endian)")
        = .error .attributeError ∧
    get_image_type true (0, "# ISO 9660 CD-ROM filesystem data")
        = .error .attributeError ∧
    get_image_type false (0, "") = .ok "error" ∧
    get_image_type true (1, "cannot open") = .ok "error" := by
  decide

/-! ## The isoid pipeline -/

/-- Fusion of the five single-character substitutions of the isoid
pipeline into one filter of quotes and parentheses followed by one
space-and-hyphen substitution. -/
theorem isoid_chain_eq :
    ∀ l : List Char,
      pyReplaceChar ')' [] (pyReplaceChar '(' []
        (pyReplaceChar '-' ['_'] (pyReplaceChar ' ' ['_'] (pyReplaceChar '\"' [] l)))) =
      (l.filter (fun c => !(c == '\"' || c == '(' || c == ')'))).map
        (fun c => if c == ' ' || c == '-' then '_' else c)
  | [] => rfl
  | c :: rest => by
    have ih := isoid_chain_eq rest
    by_cases h1 : c = '\"'
    · subst h1; simpa [pyReplaceChar] using ih
    · by_cases h2 : c = ' '
      · subst h2; simpa [pyReplaceChar, List.filter_cons] using ih
      · by_cases h3 : c = '-'
        · subst h3; simpa [pyReplaceChar, List.filter_cons] using ih
        · by_cases h4 : c = '('
          · subst h4; simpa [pyReplaceChar] using ih
          · by_cases h5 : c = ')'
            · subst h5; simpa [pyReplaceChar] using ih
            · simp [pyReplaceChar, List.filter_cons, h1, h2, h3, h4, h5, ih]

/-- Claim C4, amended: the extracted isoid equals the input with double
quotes and parentheses removed, every space and every hyphen replaced by a
single underscore, every occurrence of three consecutive underscores
replaced by a single underscore in one left-to-right pass, and the result
lower-cased. -/
theorem extract_isoid_amended_spec (s : String) :
    extract_isoid s = isoid_amended s := by
  unfold extract_isoid isoid_amended
  rw [isoid_chain_eq]
  rfl

/-- Claim C4, counterexample: on the file content `a__b` the code keeps
both underscores — `replace("___", "_")` needs three — while the claimed
collapsing of every underscore run produces a single one. -/
theorem extract_isoid_counter :
    extract_isoid "a__b" = "a__b" ∧ isoid_claimed "a__b" = "a_b" ∧
    extract_isoid "a__b" ≠ isoid_claimed "a__b" := by
  decide

/-! ## Partiality of the disc-identity extraction -/

/-- `find?` over an appended list: the left result wins. -/
theorem find_append_opt (p : String → Bool) :
    ∀ l1 l2 : List String, (l1 ++ l2).find? p = optOr (l1.find? p) (l2.find? p)
  | [], l2 => rfl
  | x :: t, l2 => by
    rw [List.cons_append]
    cases hx : p x <;> simp [List.find?, hx, find_append_opt p t l2, optOr]

/-- The release loop keeps the last candidate: it equals the first
candidate of the reversed listing. -/
theorem pickRelease_eq (dists : List String) :
    pickRelease dists = dists.reverse.find? candB := by
  have aux : ∀ (l : List String) (acc : Option String),
      l.foldl (fun a r => if candB r then some r else a) acc =
        optOr (l.reverse.find? candB) acc := by
    intro l
    induction l with
    | nil => intro acc; rfl
    | cons x t ih =>
      intro acc
      rw [List.foldl_cons, ih, List.reverse_cons, find_append_opt]
      cases hf : t.reverse.find? candB <;> cases hx : candB x <;>
        simp [optOr, List.find?, hx]
  rw [pickRelease, aux dists none]
  cases h : dists.reverse.find? candB <;> simp [optOr]

/-- A successful arch loop starting from an unbound accumulator saw a
matching line. -/
theorem pickArchE_ok_some (a : String) :
    ∀ (lines : List String) (acc : Option String),
      pickArchE lines acc = .ok (some a) → hasArchLine lines = true ∨ acc = some a
  | [], acc => by
    intro h
    right
    simpa [pickArchE] using h
  | line :: rest, acc => by
    intro h
    rw [pickArchE] at h
    by_cases hl : archLineB line = true
    · left
      simp [hasArchLine, List.any_cons, hl]
    · rw [if_neg hl] at h
      rcases pickArchE_ok_some a rest acc h with hr | hacc
      · left
        simp only [hasArchLine, List.any_cons, Bool.or_eq_true]
        exact Or.inr hr
      · right
        exact hacc

/-- With no matching line the arch loop returns its accumulator. -/
theorem pickArchE_no_match :
    ∀ (lines : List String) (acc : Option String), hasArchLine lines = false →
      pickArchE lines acc = .ok acc
  | [], _ => fun _ => rfl
  | line :: rest, acc => by
    intro h
    simp only [hasArchLine, List.any_cons, Bool.or_eq_false_iff] at h
    rw [pickArchE, if_neg (by simp [h.1])]
    exact pickArchE_no_match rest acc (by simpa [hasArchLine] using h.2)

/-- A candidate-free listing yields no release. -/
theorem pickRelease_none (dists : List String) (h : hasCandidate dists = false) :
    pickRelease dists = none := by
  rw [pickRelease_eq]
  cases hf : dists.reverse.find? candB with
  | none => rfl
  | some r =>
    have hp : candB r = true := List.find?_some hf
    have hm : r ∈ dists := List.mem_reverse.mp (List.mem_of_find?_eq_some hf)
    have : hasCandidate dists = true := List.any_eq_true.mpr ⟨r, hm, hp⟩
    rw [this] at h
    cases h

/-- Claim C10: the extraction is partial.  With both files present, a
triple comes back only when the dists listing holds an entry other than
stable and unstable and some diskdefines line starts with the ARCH define
followed by two spaces — and the release of the triple is the last
candidate in listing order; when either condition fails the extraction
raises; and inside the start sequence such an exception propagates out of
the delta step instead of becoming a result code. -/
theorem extract_cd_info_needs_conditions (info : String) (dists lines : List String) :
    (∀ i r a, extract_cd_info ⟨some info, dists, some lines⟩ = .ok (i, r, a) →
        hasCandidate dists = true ∧ hasArchLine lines = true ∧
        dists.reverse.find? candB = some r) ∧
    ((hasCandidate dists = false ∨ hasArchLine lines = false) →
        ∃ e, extract_cd_info ⟨some info, dists, some lines⟩ = .error e) ∧
    (∀ e args env cfg sq tr,
        env.fixture (dirname (dirname sq)) = ⟨some info, dists, some lines⟩ →
        extract_cd_info ⟨some info, dists, some lines⟩ = .error e →
        (cmd_start_delta args env cfg sq tr).1 = .error e) := by
  refine ⟨?_, ?_, ?_⟩
  · intro i r a h
    simp only [extract_cd_info] at h
    cases harch : pickArchE lines none with
    | error e => rw [harch] at h; cases h
    | ok arch? =>
      rw [harch] at h
      cases hrel : pickRelease dists with
      | none => rw [hrel] at h; cases h
      | some r0 =>
        rw [hrel] at h
        cases arch? with
        | none => cases h
        | some a0 =>
          have hr0 : r0 = r := by
            simpa using congrArg (fun x => match x with
              | Except.ok (y : String × String × String) => y.2.1
              | Except.error _ => r0) h
          have hcand : hasCandidate dists = true := by
            have hfind : dists.reverse.find? candB = some r0 := by
              rw [← pickRelease_eq]; exact hrel
            have hp : candB r0 = true := List.find?_some hfind
            have hm : r0 ∈ dists := List.mem_reverse.mp (List.mem_of_find?_eq_some hfind)
            exact List.any_eq_true.mpr ⟨r0, hm, hp⟩
          have harchl : hasArchLine lines = true := by
            rcases pickArchE_ok_some a0 lines none harch with hl | hnone
            · exact hl
            · cases hnone
          refine ⟨hcand, harchl, ?_⟩
          rw [← pickRelease_eq, hrel, hr0]
  · intro h
    rcases h with hc | ha
    · cases harch : pickArchE lines none with
      | error e => exact ⟨e, by simp [extract_cd_info, harch]⟩
      | ok arch? =>
        exact ⟨.unboundLocal, by simp [extract_cd_info, harch, pickRelease_none dists hc]⟩
    · cases hrel : pickRelease dists with
      | none =>
        exact ⟨.unboundLocal, by
          simp [extract_cd_info, pickArchE_no_match lines none ha, hrel]⟩
      | some r0 =>
        exact ⟨.unboundLocal, by
          simp [extract_cd_info, pickArchE_no_match lines none ha, hrel]⟩
  · intro e args env cfg sq tr hfix herr
    simp only [cmd_start_delta, hfix, herr]

/-! ## Trace lemmas for the start phases -/

/-- The run phase never removes the delta. -/
theorem cmd_start_run_no_removeDelta (env : Env) (tr : List Event)
    (h : Event.removeDelta ∉ tr) : Event.removeDelta ∉ (cmd_start_run env tr).2 := by
  unfold cmd_start_run
  simp only [ne_eq]
  repeat' split
  all_goals simp_all

/-- With delta reuse on, the delta phase never removes the delta. -/
theorem cmd_start_delta_no_removeDelta (args : StartArgs) (env : Env) (cfg : Config)
    (sq : String) (tr : List Event) (hk : effKeepDelta args = true)
    (h : Event.removeDelta ∉ tr) :
    Event.removeDelta ∉ (cmd_start_delta args env cfg sq tr).2 := by
  unfold cmd_start_delta
  simp only [ne_eq]
  repeat' split
  all_goals simp_all
  all_goals exact cmd_start_run_no_removeDelta env _ (by simp_all)

/-- With delta reuse on, the custom-installation phase never removes the
delta. -/
theorem cmd_start_custom_no_removeDelta (args : StartArgs) (env : Env) (cfg : Config)
    (sq : String) (tr : List Event) (hk : effKeepDelta args = true)
    (h : Event.removeDelta ∉ tr) :
    Event.removeDelta ∉ (cmd_start_custom args env cfg sq tr).2 := by
  unfold cmd_start_custom
  simp only [ne_eq]
  repeat' split
  all_goals try exact cmd_start_delta_no_removeDelta args env cfg sq _ hk (by simp_all)
  all_goals simp_all

/-- With delta reuse on, the image phase never removes the delta. -/
theorem cmd_start_images_no_removeDelta (args : StartArgs) (env : Env) (cfg : Config)
    (tr : List Event) (hk : effKeepDelta args = true)
    (h : Event.removeDelta ∉ tr) :
    Event.removeDelta ∉ (cmd_start_images args env cfg tr).2 := by
  unfold cmd_start_images
  simp only [ne_eq]
  repeat' split
  all_goals try exact cmd_start_custom_no_removeDelta args env _ _ _ hk (by simp_all)
  all_goals simp_all

/-- With delta reuse on, the restore phase never removes the delta. -/
theorem cmd_start_restore_no_removeDelta (args : StartArgs) (env : Env)
    (tr : List Event) (hk : effKeepDelta args = true)
    (h : Event.removeDelta ∉ tr) :
    Event.removeDelta ∉ (cmd_start_restore args env tr).2 := by
  unfold cmd_start_restore
  simp only [ne_eq]
  repeat' split
  all_goals try exact cmd_start_images_no_removeDelta args env _ _ hk (by simp_all)
  all_goals simp_all

/-- Claim C7: a restore path forces delta reuse on for the run — before
the delta reconciliation is reached — and consequently no invocation of
`start` with a restore path ever removes the delta. -/
theorem cmd_start_restore_forces_keep (args : StartArgs) (env : Env)
    (hres : args.restore.isSome = true) :
    effKeepDelta args = true ∧ Event.removeDelta ∉ (cmd_start args env).2 := by
  have hk : effKeepDelta args = true := by
    unfold effKeepDelta
    rw [hres, Bool.or_true]
  refine ⟨hk, ?_⟩
  unfold cmd_start
  simp only [ne_eq]
  repeat' split
  all_goals try exact cmd_start_restore_no_removeDelta args env _ hk (by simp_all)
  all_goals simp_all

/-! ## Reaching the successive phases of the start sequence -/

/-- Under passing pre-flight checks and a recoverable service-stop result,
`cmd_start` proceeds into the image phase with the effective config and a
trace holding the service stop (and the restore attempt when a restore
path was given) and none of the later events. -/
theorem cmd_start_reach_images (args : StartArgs) (env : Env)
    (hflags : (args.restore.isSome && (args.custom_installation.isSome || args.new)) = false)
    (hrun : env.containerRunning = false)
    (hsess : (!args.force_disconnect && env.gnomeSessionRunning) = false)
    (hsvc : (service_stop env.sh env.uid "lightdm").1 ≤ 2)
    (hres : ∀ r, args.restore = some r → env.archiveExists r = true) :
    ∃ tr0 : List Event,
      cmd_start args env = cmd_start_images args env (effConfig args env) tr0 ∧
      Event.serviceStop ∈ tr0 ∧ Event.runtimeStart ∉ tr0 ∧
      Event.removeDelta ∉ tr0 ∧ Event.forcedStop ∉ tr0 := by
  unfold cmd_start
  rw [hflags, hrun]
  simp only [Bool.false_eq_true, if_false]
  rw [hsess]
  simp only [Bool.false_eq_true, if_false]
  rw [if_neg (not_lt.mpr hsvc)]
  unfold cmd_start_restore
  cases hr : args.restore with
  | none =>
    refine ⟨[Event.serviceStop], ?_, by decide, by decide, by decide, by decide⟩
    simp [effConfig, hr]
  | some rpath =>
    refine ⟨[Event.serviceStop, Event.restoreAttempt], ?_, by decide, by decide,
      by decide, by decide⟩
    simp [effConfig, hr, hres rpath hr]

/-- Claim C5: the display-manager stop aborts the whole start, propagating
its result unchanged, exactly when the result exceeds 2; any result of at
most 2 lets the sequence continue into the restore step. -/
theorem cmd_start_service_threshold (args : StartArgs) (env : Env)
    (hflags : (args.restore.isSome && (args.custom_installation.isSome || args.new)) = false)
    (hrun : env.containerRunning = false)
    (hsess : (!args.force_disconnect && env.gnomeSessionRunning) = false) :
    ((service_stop env.sh env.uid "lightdm").1 > 2 →
      cmd_start args env =
        (.ok (service_stop env.sh env.uid "lightdm").1, [Event.serviceStop])) ∧
    ((service_stop env.sh env.uid "lightdm").1 ≤ 2 →
      cmd_start args env = cmd_start_restore args env [Event.serviceStop]) := by
  unfold cmd_start
  rw [hflags, hrun]
  simp only [Bool.false_eq_true, if_false]
  rw [hsess]
  simp only [Bool.false_eq_true, if_false]
  constructor
  · intro hgt
    rw [if_pos hgt]
  · intro hle
    rw [if_neg (not_lt.mpr hle)]

/-- Claim C5, witness: run without root privilege the service stop yields
3, and the start aborts with exactly that code after the single service
stop call. -/
theorem cmd_start_service_threshold_witness :
    cmd_start argsW envPriv = (.ok 3, [Event.serviceStop]) :=
  (cmd_start_service_threshold argsW envPriv (by decide) (by decide) (by decide)).1
    (by decide)

/-- Claim C9, amended: when the prechecks pass and the service stop result
is recoverable, a restore path naming no existing archive makes `start`
return 1 with exactly a service stop followed by the restore attempt: the
service stop precedes the restore attempt and the runtime start primitive
is never invoked. -/
theorem cmd_start_restore_missing (args : StartArgs) (env : Env) (rpath : String)
    (hflags : (args.restore.isSome && (args.custom_installation.isSome || args.new)) = false)
    (hrun : env.containerRunning = false)
    (hsess : (!args.force_disconnect && env.gnomeSessionRunning) = false)
    (hsvc : (service_stop env.sh env.uid "lightdm").1 ≤ 2)
    (hr : args.restore = some rpath)
    (hmiss : env.archiveExists rpath = false) :
    cmd_start args env = (.ok 1, [Event.serviceStop, Event.restoreAttempt]) := by
  unfold cmd_start
  rw [hflags, hrun]
  simp only [Bool.false_eq_true, if_false]
  rw [hsess]
  simp only [Bool.false_eq_true, if_false]
  rw [if_neg (not_lt.mpr hsvc)]
  unfold cmd_start_restore
  rw [hr]
  simp [hmiss]

/-- Claim C9, witness for the amended claim: a concrete start with
`-r a.tgz` and no such archive returns 1 after service stop then restore
attempt. -/
theorem cmd_start_restore_missing_witness :
    cmd_start argsRestore envNoArchive = (.ok 1, [Event.serviceStop, Event.restoreAttempt]) :=
  cmd_start_restore_missing argsRestore envNoArchive "a.tgz" (by decide) (by decide)
    (by decide) (by decide) (by decide) (by decide)

/-- Claim C9, counterexample: with the same missing archive but a
non-root caller, `start` returns the service result 3, not 1 — the claim
does not hold of every invocation with a missing restore archive. -/
theorem cmd_start_restore_missing_counter :
    argsRestore.restore = some "a.tgz" ∧ envPriv.archiveExists "a.tgz" = false ∧
    cmd_start argsRestore envPriv = (.ok 3, [Event.serviceStop]) ∧
    (cmd_start argsRestore envPriv).1 ≠ .ok 1 := by
  decide

/-- Claim C7, witness: a concrete start with a restore path forces delta
reuse and removes no delta. -/
theorem cmd_start_restore_forces_keep_witness :
    effKeepDelta argsRestore = true ∧
    Event.removeDelta ∉ (cmd_start argsRestore envW).2 :=
  cmd_start_restore_forces_keep argsRestore envW (by decide)

/-- Under passing pre-flight checks, a recoverable service result, a
successful restore (when asked), a resolvable image and a successful
custom installation (when asked), `cmd_start` proceeds into the delta
phase on the recorded config and squashfs. -/
theorem cmd_start_reach_delta (args : StartArgs) (env : Env)
    (hflags : (args.restore.isSome && (args.custom_installation.isSome || args.new)) = false)
    (hrun : env.containerRunning = false)
    (hsess : (!args.force_disconnect && env.gnomeSessionRunning) = false)
    (hsvc : (service_stop env.sh env.uid "lightdm").1 ≤ 2)
    (hres : ∀ r, args.restore = some r → env.archiveExists r = true)
    (ip iso sq : String)
    (hip : resolvedImagePath args env (effConfig args env) = some ip)
    (hsq : get_iso_and_squashfs env ip = (some iso, some sq))
    (hinst : ∀ c, args.custom_installation = some c → env.installOk c = true) :
    ∃ tr0 : List Event,
      cmd_start args env = cmd_start_delta args env
        { effConfig args env with iso := some iso, squashfs := some sq, image := some ip }
        sq tr0 ∧
      Event.serviceStop ∈ tr0 ∧ Event.runtimeStart ∉ tr0 ∧
      Event.removeDelta ∉ tr0 ∧ Event.forcedStop ∉ tr0 := by
  obtain ⟨tr0, heq, h1, h2, h3, h4⟩ :=
    cmd_start_reach_images args env hflags hrun hsess hsvc hres
  rw [heq]
  unfold cmd_start_images
  rw [hip]
  simp only [hsq]
  unfold cmd_start_custom
  cases hcust : args.custom_installation with
  | none =>
    cases hnew : args.new with
    | false =>
      refine ⟨tr0 ++ [Event.resolveImage], by simp, ?_, ?_, ?_, ?_⟩ <;>
        simp [List.mem_append, h1, h2, h3, h4]
    | true =>
      refine ⟨tr0 ++ [Event.resolveImage] ++ [Event.removeCustom], by simp, ?_, ?_, ?_, ?_⟩ <;>
        simp [List.mem_append, h1, h2, h3, h4]
  | some c =>
    have hio := hinst c hcust
    cases hnew : args.new with
    | false =>
      refine ⟨tr0 ++ [Event.resolveImage] ++ [Event.installCustom],
        by simp [hio], ?_, ?_, ?_, ?_⟩ <;>
        simp [List.mem_append, h1, h2, h3, h4]
    | true =>
      refine ⟨tr0 ++ [Event.resolveImage] ++ [Event.removeCustom] ++ [Event.installCustom],
        by simp [hio], ?_, ?_, ?_, ?_⟩ <;>
        simp [List.mem_append, h1, h2, h3, h4]

/-- Claim C1: in a run that reaches disc-identity extraction, with delta
reuse requested and the three stored identity fields present, a mismatch
in any single field makes `start` return 1 without invoking the runtime
start primitive; with delta reuse not requested the delta is removed
unconditionally. -/
theorem cmd_start_delta_reconciliation (args : StartArgs) (env : Env)
    (hflags : (args.restore.isSome && (args.custom_installation.isSome || args.new)) = false)
    (hrun : env.containerRunning = false)
    (hsess : (!args.force_disconnect && env.gnomeSessionRunning) = false)
    (hsvc : (service_stop env.sh env.uid "lightdm").1 ≤ 2)
    (hres : ∀ r, args.restore = some r → env.archiveExists r = true)
    (ip iso sq i r a : String)
    (hip : resolvedImagePath args env (effConfig args env) = some ip)
    (hsq : get_iso_and_squashfs env ip = (some iso, some sq))
    (hinst : ∀ c, args.custom_installation = some c → env.installOk c = true)
    (hext : extract_cd_info (env.fixture (dirname (dirname sq))) = .ok (i, r, a)) :
    (∀ ci cr ca, effKeepDelta args = true →
        (effConfig args env).isoid = some ci →
        (effConfig args env).release = some cr →
        (effConfig args env).arch = some ca →
        ¬(ci = i ∧ cr = r ∧ ca = a) →
        (cmd_start args env).1 = .ok 1 ∧
        Event.runtimeStart ∉ (cmd_start args env).2) ∧
    (effKeepDelta args = false → Event.removeDelta ∈ (cmd_start args env).2) := by
  obtain ⟨tr0, heq, h1, h2, h3, h4⟩ :=
    cmd_start_reach_delta args env hflags hrun hsess hsvc hres ip iso sq hip hsq hinst
  constructor
  · intro ci cr ca hk hci hcr hca hmis
    have htm : tripleMatches
        { effConfig args env with iso := some iso, squashfs := some sq, image := some ip }
        i r a = .ok false := by
      by_cases hcii : ci = i
      · by_cases hcrr : cr = r
        · have hcaa : ¬ ca = a := fun hx => hmis ⟨hcii, hcrr, hx⟩
          subst hcii; subst hcrr
          simp [tripleMatches, getattrE, hci, hcr, hca, hcaa]
        · subst hcii
          simp [tripleMatches, getattrE, hci, hcr, hca, hcrr]
      · simp [tripleMatches, getattrE, hci, hcii]
    rw [heq]
    unfold cmd_start_delta
    simp only [hext, hk, if_true, htm]
    exact ⟨by simp, by simp [List.mem_append, h2]⟩
  · intro hk
    rw [heq]
    unfold cmd_start_delta
    simp only [hext, hk, Bool.false_eq_true, if_false]
    unfold cmd_start_run
    repeat' split
    all_goals simp [List.mem_append]

/-- Claim C1, witness: a start with `--keep-delta` against a stored
identity `(old, focal, amd64)` and a new image identity
`(x, jammy, amd64)` returns 1 and never invokes the runtime start. -/
theorem cmd_start_delta_reconciliation_witness :
    (cmd_start argsKeep envW).1 = .ok 1 ∧
    Event.runtimeStart ∉ (cmd_start argsKeep envW).2 :=
  (cmd_start_delta_reconciliation argsKeep envW (by decide) (by decide) (by decide)
      (by decide) (fun _ h => Option.noConfusion h) "/image.iso" "/mnt.iso" "/sq"
      "x" "jammy" "amd64" (by decide) (by decide) (fun _ h => Option.noConfusion h)
      (by decide)).1
    "old" "focal" "amd64" (by decide) (by decide) (by decide) (by decide) (by decide)

/-- Claim C6: in a run that reaches the bounded wait — the delta check
passes and the runtime start succeeds — a container still running when
the wait returns triggers exactly one forced stop and result 1, while a
container that reached the stopped state yields result 0 and no forced
stop. -/
theorem cmd_start_bounded_wait (args : StartArgs) (env : Env)
    (hflags : (args.restore.isSome && (args.custom_installation.isSome || args.new)) = false)
    (hrun : env.containerRunning = false)
    (hsess : (!args.force_disconnect && env.gnomeSessionRunning) = false)
    (hsvc : (service_stop env.sh env.uid "lightdm").1 ≤ 2)
    (hres : ∀ r, args.restore = some r → env.archiveExists r = true)
    (ip iso sq i r a : String)
    (hip : resolvedImagePath args env (effConfig args env) = some ip)
    (hsq : get_iso_and_squashfs env ip = (some iso, some sq))
    (hinst : ∀ c, args.custom_installation = some c → env.installOk c = true)
    (hext : extract_cd_info (env.fixture (dirname (dirname sq))) = .ok (i, r, a))
    (hdelta : effKeepDelta args = false ∨
      tripleMatches (effConfig args env) i r a = .ok true)
    (hstart : env.runtimeStartOk = true) :
    (env.runningAfterWait = true →
      (cmd_start args env).1 = .ok 1 ∧
      (cmd_start args env).2.count Event.forcedStop = 1 ∧
      Event.runtimeStart ∈ (cmd_start args env).2) ∧
    (env.runningAfterWait = false →
      (cmd_start args env).1 = .ok 0 ∧
      (cmd_start args env).2.count Event.forcedStop = 0) := by
  obtain ⟨tr0, heq, h1, h2, h3, h4⟩ :=
    cmd_start_reach_delta args env hflags hrun hsess hsvc hres ip iso sq hip hsq hinst
  have hct0 : tr0.count Event.forcedStop = 0 := List.count_eq_zero.mpr h4
  obtain ⟨tr1, heq1, hct1⟩ : ∃ tr1, cmd_start args env = cmd_start_run env tr1 ∧
      tr1.count Event.forcedStop = 0 := by
    cases hk : effKeepDelta args with
    | false =>
      refine ⟨tr0 ++ [Event.extractInfo] ++ [Event.removeDelta], ?_, ?_⟩
      · rw [heq]
        unfold cmd_start_delta
        simp only [hext, hk, Bool.false_eq_true, if_false]
      · simp [List.count_append, hct0]
    | true =>
      have htm : tripleMatches (effConfig args env) i r a = .ok true := by
        rcases hdelta with hfalse | htrue
        · rw [hk] at hfalse; cases hfalse
        · exact htrue
      have htm' : tripleMatches
          { effConfig args env with iso := some iso, squashfs := some sq, image := some ip }
          i r a = .ok true := htm
      refine ⟨tr0 ++ [Event.extractInfo], ?_, ?_⟩
      · rw [heq]
        unfold cmd_start_delta
        simp only [hext, hk, if_true, htm']
      · simp [List.count_append, hct0]
  constructor
  · intro hw
    rw [heq1]
    unfold cmd_start_run
    simp [hstart, hw, List.count_append, hct1, List.mem_append]
  · intro hw
    rw [heq1]
    unfold cmd_start_run
    simp [hstart, hw, List.count_append, hct1]

/-- Claim C6, witness: a concrete start in which the wait times out
returns 1 with exactly one forced stop; the same start with a container
that stopped in time returns 0 with none. -/
theorem cmd_start_bounded_wait_witness :
    ((cmd_start argsW envW).1 = .ok 1 ∧
      (cmd_start argsW envW).2.count Event.forcedStop = 1 ∧
      Event.runtimeStart ∈ (cmd_start argsW envW).2) ∧
    ((cmd_start argsW envStopped).1 = .ok 0 ∧
      (cmd_start argsW envStopped).2.count Event.forcedStop = 0) :=
  ⟨(cmd_start_bounded_wait argsW envW (by decide) (by decide) (by decide) (by decide)
      (fun _ h => Option.noConfusion h) "/image.iso" "/mnt.iso" "/sq" "x" "jammy" "amd64"
      (by decide) (by decide) (fun _ h => Option.noConfusion h) (by decide)
      (Or.inl (by decide)) (by decide)).1 (by decide),
   (cmd_start_bounded_wait argsW envStopped (by decide) (by decide) (by decide) (by decide)
      (fun _ h => Option.noConfusion h) "/image.iso" "/mnt.iso" "/sq" "x" "jammy" "amd64"
      (by decide) (by decide) (fun _ h => Option.noConfusion h) (by decide)
      (Or.inl (by decide)) (by decide)).2 (by decide)⟩

/-- Claim C8: past the service and restore steps, `start` returns 1
without invoking the runtime start whenever no image was supplied and
none is recorded, whenever the recorded image path does not exist, and
whenever a caller-supplied image resolves to a nonexistent path (the
latter through the failing resolution, which classifies a missing file as
an error). -/
theorem cmd_start_image_failures (args : StartArgs) (env : Env)
    (hflags : (args.restore.isSome && (args.custom_installation.isSome || args.new)) = false)
    (hrun : env.containerRunning = false)
    (hsess : (!args.force_disconnect && env.gnomeSessionRunning) = false)
    (hsvc : (service_stop env.sh env.uid "lightdm").1 ≤ 2)
    (hres : ∀ r, args.restore = some r → env.archiveExists r = true) :
    ((args.image = none ∧ (effConfig args env).image = none) →
      (cmd_start args env).1 = .ok 1 ∧
      Event.runtimeStart ∉ (cmd_start args env).2) ∧
    (∀ p, args.image = none → (effConfig args env).image = some p →
      env.pathExists p = false →
      (cmd_start args env).1 = .ok 1 ∧
      Event.runtimeStart ∉ (cmd_start args env).2) ∧
    (∀ p, args.image = some p → env.pathExists (env.realpath p) = false →
      (cmd_start args env).1 = .ok 1 ∧
      Event.runtimeStart ∉ (cmd_start args env).2) := by
  obtain ⟨tr0, heq, h1, h2, h3, h4⟩ :=
    cmd_start_reach_images args env hflags hrun hsess hsvc hres
  refine ⟨?_, ?_, ?_⟩
  · rintro ⟨hai, hci⟩
    rw [heq]
    unfold cmd_start_images resolvedImagePath
    simp only [hai, hci]
    exact ⟨by simp, h2⟩
  · intro p hai hci hpe
    rw [heq]
    unfold cmd_start_images resolvedImagePath
    simp only [hai, hci, hpe, Bool.false_eq_true, if_false]
    exact ⟨by simp, h2⟩
  · intro p hai hpe
    rw [heq]
    unfold cmd_start_images resolvedImagePath
    simp only [hai]
    unfold get_iso_and_squashfs
    simp only [hpe, Bool.false_eq_true, if_false]
    exact ⟨by simp, by simp [List.mem_append, h2]⟩

/-- Claim C8, witness: with no image on the command line and none in the
config, a concrete start returns 1 and never invokes the runtime
start. -/
theorem cmd_start_image_failures_witness :
    (cmd_start argsNoImage envNoImage).1 = .ok 1 ∧
    Event.runtimeStart ∉ (cmd_start argsNoImage envNoImage).2 :=
  (cmd_start_image_failures argsNoImage envNoImage (by decide) (by decide) (by decide)
      (by decide) (fun _ h => Option.noConfusion h)).1 ⟨by decide, by decide⟩

end Otto
